import Mathlib

/-!
Verification of the Profile-API-with-Cat-Facts service.

The development shallowly embeds the Python source (`services.py`,
`main.py`, `config.py`, `models.py`) as pure Lean functions.  The
nondeterministic inputs of a request — the process environment, the
process clock, and the outcome of the one outbound HTTP call — are
passed explicitly; everything else is translated line by line from the
source.
-/

/-- JSON values, the possible results of parsing an upstream response
body (`response.json()` in `services.py`).  An object is the parsed
Python dict, rendered as an association list whose keys are distinct
(the `json` module resolves duplicates before `fetch_cat_fact` sees
the dict). -/
inductive Json where
  | null : Json
  | bool (b : Bool) : Json
  | num (n : Int) : Json
  | str (s : String) : Json
  | arr (elems : List Json) : Json
  | obj (fields : List (String × Json)) : Json

/-- Python `dict.get key`: the value bound to `key` when present.
Mirrors `data.get("fact", ...)` in `services.py` line 54. -/
def lookupField (fields : List (String × Json)) (key : String) : Option Json :=
  match fields with
  | [] => none
  | (k, v) :: rest => if k = key then some v else lookupField rest key

/-- The Python type name of a JSON value once decoded by the `json`
module; used to model the `AttributeError` message raised by
`data.get` when `data` is not a dict. -/
def Json.pyTypeName : Json → String
  | .null => "NoneType"
  | .bool _ => "bool"
  | .num _ => "int"
  | .str _ => "str"
  | .arr _ => "list"
  | .obj _ => "dict"

/-- `fastapi.HTTPException`: an HTTP status code plus a detail
message.  FastAPI renders an uncaught instance as a response with
that status and body `{"detail": <detail>}`. -/
structure HTTPException where
  status_code : Nat
  detail : String
deriving DecidableEq

/-- The result of running `response.json()` on the body of a received
upstream response: either a decoded JSON value or a decode failure
carrying the exception text. -/
inductive BodyParse where
  | malformed (errMsg : String) : BodyParse
  | parsed (value : Json) : BodyParse

/-- The outcome of the single outbound `client.get(CAT_FACT_API)`
call in `fetch_cat_fact`: a response with a status code and a body,
an `httpx.TimeoutException`, or an `httpx.RequestError` (connection
failed, DNS, reset) with its message. -/
inductive UpstreamOutcome where
  | response (statusCode : Nat) (body : BodyParse) : UpstreamOutcome
  | timeoutExc : UpstreamOutcome
  | requestError (detail : String) : UpstreamOutcome

/-- `httpx.Response.is_success`: `raise_for_status` in
`fetch_cat_fact` returns normally exactly on a 2xx status. -/
def isSuccessStatus (code : Nat) : Bool :=
  200 ≤ code && code < 300

/-- The fallback fact used at `services.py` line 54 when the decoded
object has no "fact" key. -/
def FALLBACK_FACT : String := "Cats are amazing creatures!"

/-- The `AttributeError` text raised by `data.get(...)` when the
decoded body is not a dict (modelled up to exact CPython
punctuation). -/
def attributeErrorMsg (v : Json) : String :=
  v.pyTypeName ++ " object has no attribute get"

/-- `services.fetch_cat_fact` (lines 41-84), translated clause by
clause.  On a received response, `raise_for_status` raises
`httpx.HTTPStatusError` for a non-2xx status (caught at line 65,
re-raised as a 503 `HTTPException` naming the upstream code); on a
2xx status the body is decoded and `data.get("fact", fallback)` is
returned.  A body that fails to decode, or decodes to a non-dict,
raises an exception caught by the final `except Exception` clause
(line 79), which re-raises a 500 `HTTPException`.  Timeouts and
request errors become 503 `HTTPException`s (lines 58-77). -/
def fetch_cat_fact (outcome : UpstreamOutcome) : Except HTTPException Json :=
  match outcome with
  | .timeoutExc =>
      Except.error
        { status_code := 503,
          detail := "Cat Facts API is taking too long to respond. Please try again." }
  | .requestError d =>
      Except.error
        { status_code := 503,
          detail := "Failed to connect to Cat Facts API: " ++ d }
  | .response code body =>
      if isSuccessStatus code then
        match body with
        | .malformed errMsg =>
            Except.error
              { status_code := 500,
                detail := "Unexpected error while fetching cat fact: " ++ errMsg }
        | .parsed (Json.obj fields) =>
            Except.ok ((lookupField fields "fact").getD (Json.str FALLBACK_FACT))
        | .parsed v =>
            Except.error
              { status_code := 500,
                detail := "Unexpected error while fetching cat fact: " ++
                  attributeErrorMsg v }
      else
        Except.error
          { status_code := 503,
            detail := "Cat Facts API returned an error: " ++ toString code }

/-- A UTC instant as held by a Python `datetime` with
`tzinfo=timezone.utc`; the explicit model of
`datetime.now(timezone.utc)`. -/
structure DateTime where
  year : Nat
  month : Nat
  day : Nat
  hour : Nat
  minute : Nat
  second : Nat
  microsecond : Nat
deriving DecidableEq

/-- The field ranges Python `datetime` guarantees. -/
def DateTime.Valid (t : DateTime) : Prop :=
  1 ≤ t.year ∧ t.year ≤ 9999 ∧ 1 ≤ t.month ∧ t.month ≤ 12 ∧
  1 ≤ t.day ∧ t.day ≤ 31 ∧ t.hour ≤ 23 ∧ t.minute ≤ 59 ∧
  t.second ≤ 59 ∧ t.microsecond ≤ 999999

/-- The decimal digit character for `n % 10`. -/
def digitChar (n : Nat) : Char := Char.ofNat (48 + n % 10)

/-- The zero-padded `w`-wide decimal rendering of `n` (the `%04d`,
`%02d`, `%06d` fields of `datetime.isoformat`), most significant
digit first.  Faithful to Python exactly when `n < 10 ^ w`, which the
`DateTime.Valid` ranges guarantee at every use. -/
def padChars : Nat → Nat → List Char
  | 0, _ => []
  | w + 1, n => digitChar (n / 10 ^ w) :: padChars w n

/-- `datetime.isoformat()` on a UTC-aware datetime, as a character
list: `YYYY-MM-DDTHH:MM:SS[.ffffff]+00:00`, the fractional part
omitted exactly when `microsecond == 0`. -/
def isoformatChars (t : DateTime) : List Char :=
  padChars 4 t.year ++ ('-' :: (padChars 2 t.month ++ ('-' :: (padChars 2 t.day ++
  ('T' :: (padChars 2 t.hour ++ (':' :: (padChars 2 t.minute ++ (':' ::
  (padChars 2 t.second ++
  ((if t.microsecond = 0 then [] else '.' :: padChars 6 t.microsecond) ++
  ['+', '0', '0', ':', '0', '0'])))))))))))

/-- `services.get_current_timestamp` (lines 87-102):
`datetime.now(timezone.utc).isoformat()`, with the clock reading
passed explicitly. -/
def get_current_timestamp (now : DateTime) : String :=
  String.mk (isoformatChars now)

/-- The three user fields of `models.UserInfo`. -/
structure UserInfo where
  email : String
  name : String
  stack : String
deriving DecidableEq

/-- The process environment restricted to the three user variables
read by the service: `USER_EMAIL`, `USER_NAME`, `USER_STACK`;
`none` models an unset variable. -/
structure Env where
  userEmail : Option String
  userName : Option String
  userStack : Option String
deriving DecidableEq

/-- `services.get_user_info` (lines 105-124): a fresh read of the
three environment variables on every call, each with the default
hard-coded in `services.py` (note the stack default
"Python/FastAPI"). -/
def get_user_info (env : Env) : UserInfo :=
  { email := env.userEmail.getD "your.email@example.com",
    name := env.userName.getD "Your Full Name",
    stack := env.userStack.getD "Python/FastAPI" }

/-- The user fields of `config.Settings` (config.py lines 37-39),
resolved once at process start from the same environment variables
but with the default stack "JavaScript/Nodejs". -/
def settingsUserInfo (env : Env) : UserInfo :=
  { email := env.userEmail.getD "your.email@example.com",
    name := env.userName.getD "Your Full Name",
    stack := env.userStack.getD "JavaScript/Nodejs" }

/-- The dict built by `build_profile_response` (services.py lines
153-158): the four keys "status", "user", "timestamp", "fact" are
always all present.  `fact` holds whatever `fetch_cat_fact`
returned, which is a JSON value, not necessarily a string. -/
structure ProfilePayload where
  status : String
  user : UserInfo
  timestamp : String
  fact : Json

/-- `services.build_profile_response` (lines 127-158): awaits
`fetch_cat_fact` (an `HTTPException` raised there propagates
unchanged), then assembles the four-field dict. -/
def build_profile_response (env : Env) (now : DateTime) (outcome : UpstreamOutcome) :
    Except HTTPException ProfilePayload :=
  match fetch_cat_fact outcome with
  | Except.error e => Except.error e
  | Except.ok catFact =>
      Except.ok
        { status := "success",
          user := get_user_info env,
          timestamp := get_current_timestamp now,
          fact := catFact }

/-- JSON serialization of the user dict. -/
def UserInfo.toJson (u : UserInfo) : Json :=
  Json.obj [("email", Json.str u.email), ("name", Json.str u.name),
            ("stack", Json.str u.stack)]

/-- JSON serialization of the profile dict as `JSONResponse` emits
it.  Because `get_profile` returns a `JSONResponse` directly, the
`response_model=ProfileResponse` pydantic validation is bypassed and
the dict is serialized as-is. -/
def ProfilePayload.toJson (p : ProfilePayload) : Json :=
  Json.obj [("status", Json.str p.status), ("user", p.user.toJson),
            ("timestamp", Json.str p.timestamp), ("fact", p.fact)]

/-- An HTTP response as seen by the client: status code and JSON
body. -/
structure HttpResult where
  statusCode : Nat
  body : Json

/-- The "fact" field of a response body, when the body is a JSON
object. -/
def HttpResult.factField (r : HttpResult) : Option Json :=
  match r.body with
  | Json.obj fields => lookupField fields "fact"
  | _ => none

/-- The "user" field of a response body, when the body is a JSON
object. -/
def HttpResult.userField (r : HttpResult) : Option Json :=
  match r.body with
  | Json.obj fields => lookupField fields "user"
  | _ => none

/-- `main.get_profile` (main.py lines 238-295): on success wraps the
assembled dict in a `JSONResponse` with status 200; an
`HTTPException` raised by the services layer is re-raised unchanged,
which FastAPI renders as a response with the exception status and
body `{"detail": <detail>}`. -/
def get_profile (env : Env) (now : DateTime) (outcome : UpstreamOutcome) : HttpResult :=
  match build_profile_response env now outcome with
  | Except.ok payload => { statusCode := 200, body := payload.toJson }
  | Except.error e =>
      { statusCode := e.status_code,
        body := Json.obj [("detail", Json.str e.detail)] }

/-- The dict returned by `main.health_check` (main.py lines 221-235). -/
structure HealthPayload where
  status : String
  timestamp : String

/-- `main.health_check`: returns the status/timestamp dict; the
handler performs no outbound call and cannot raise, so FastAPI
serves it with status 200. -/
def health_check (now : DateTime) : HealthPayload :=
  { status := "healthy", timestamp := get_current_timestamp now }

/-- The `/health` route result: FastAPI returns 200 for a handler
that returns normally, which `health_check` always does. -/
def health_route (now : DateTime) : Nat × HealthPayload :=
  (200, health_check now)

/-! ## Concrete inputs used by counterexamples and witnesses -/

/-- An environment with all three user variables unset. -/
def envDefault : Env := { userEmail := none, userName := none, userStack := none }

/-- A concrete clock reading. -/
def clock0 : DateTime :=
  { year := 2025, month := 10, day := 17, hour := 14,
    minute := 30, second := 45, microsecond := 123456 }

/-- A 2xx upstream response whose body is not valid JSON. -/
def malformedOutcome : UpstreamOutcome :=
  UpstreamOutcome.response 200
    (BodyParse.malformed "Expecting value: line 1 column 1 (char 0)")

/-- A successful upstream outcome carrying a concrete fact string. -/
def okFactOutcome : UpstreamOutcome :=
  UpstreamOutcome.response 200
    (BodyParse.parsed (Json.obj [("fact", Json.str "Cats sleep a lot.")]))

/-- A 2xx upstream response whose object body binds "fact" to the
empty string. -/
def emptyFactOutcome : UpstreamOutcome :=
  UpstreamOutcome.response 200 (BodyParse.parsed (Json.obj [("fact", Json.str "")]))

/-- The user object of an assembler result, when it succeeded. -/
def profileUserOf : Except HTTPException ProfilePayload → Option UserInfo
  | Except.ok p => some p.user
  | Except.error _ => none

/-- The fact of an assembler result, when it succeeded. -/
def profileFactOf : Except HTTPException ProfilePayload → Option Json
  | Except.ok p => some p.fact
  | Except.error _ => none

/-- Whether a JSON value is a non-empty string. -/
def factIsNonEmptyString : Json → Bool
  | Json.str s => !s.isEmpty
  | _ => false

/-! ## Inversion lemmas for the fact client and the assembler -/

/-- `fetch_cat_fact` succeeds exactly on a 2xx response whose body
decoded to a JSON object, and then returns the "fact" binding or the
fallback. -/
theorem fetch_cat_fact_ok_inv (outcome : UpstreamOutcome) (f : Json)
    (h : fetch_cat_fact outcome = Except.ok f) :
    ∃ code fields,
      outcome = UpstreamOutcome.response code (BodyParse.parsed (Json.obj fields)) ∧
      isSuccessStatus code = true ∧
      f = (lookupField fields "fact").getD (Json.str FALLBACK_FACT) := by
  cases outcome with
  | timeoutExc => simp [fetch_cat_fact] at h
  | requestError d => simp [fetch_cat_fact] at h
  | response code body =>
    by_cases hcode : isSuccessStatus code = true
    · cases body with
      | malformed m => simp [fetch_cat_fact, hcode] at h
      | parsed v =>
        cases v with
        | obj fields =>
          refine ⟨code, fields, rfl, hcode, ?_⟩
          simp [fetch_cat_fact, hcode] at h
          exact h.symm
        | null => simp [fetch_cat_fact, hcode] at h
        | bool b => simp [fetch_cat_fact, hcode] at h
        | num n => simp [fetch_cat_fact, hcode] at h
        | str s => simp [fetch_cat_fact, hcode] at h
        | arr es => simp [fetch_cat_fact, hcode] at h
    · simp [fetch_cat_fact, hcode] at h

/-- The assembler succeeds exactly when the fact client does, and
then copies its value into the `fact` field. -/
theorem build_profile_response_ok_inv (env : Env) (now : DateTime)
    (outcome : UpstreamOutcome) (p : ProfilePayload)
    (h : build_profile_response env now outcome = Except.ok p) :
    fetch_cat_fact outcome = Except.ok p.fact ∧
    p = { status := "success", user := get_user_info env,
          timestamp := get_current_timestamp now, fact := p.fact } := by
  unfold build_profile_response at h
  cases hfc : fetch_cat_fact outcome with
  | error e => rw [hfc] at h; cases h
  | ok f => rw [hfc] at h; cases h; exact ⟨rfl, rfl⟩

/-- The assembler fails exactly when the fact client does, with the
identical exception. -/
theorem build_profile_response_error_iff (env : Env) (now : DateTime)
    (outcome : UpstreamOutcome) (e : HTTPException) :
    build_profile_response env now outcome = Except.error e ↔
      fetch_cat_fact outcome = Except.error e := by
  unfold build_profile_response
  cases hfc : fetch_cat_fact outcome with
  | error e2 => simp
  | ok f => simp

/-! ## Claim C1 -/

/-- Claim C1 counterexample: a 2xx upstream response whose body is
not valid JSON is not treated as the success path.  `fetch_cat_fact`
raises a 500 `HTTPException` (the `response.json()` decode error
lands in the final `except Exception` clause), so `/me` answers 500,
not 200 with the fallback string. -/
theorem C1_counterexample :
    fetch_cat_fact malformedOutcome =
      Except.error
        { status_code := 500,
          detail := "Unexpected error while fetching cat fact: " ++
            "Expecting value: line 1 column 1 (char 0)" } ∧
    (get_profile envDefault clock0 malformedOutcome).statusCode = 500 ∧
    (get_profile envDefault clock0 malformedOutcome).statusCode ≠ 200 :=
  ⟨rfl, rfl, by decide⟩

/-- Claim C1 (amended): only a decoded JSON object missing the
"fact" key takes the success path with the fallback.  A 2xx response
whose body cannot be parsed as a JSON object — invalid JSON, or a
JSON value that is not an object — raises an unexpected-error
`HTTPException` with status 500, which `/me` returns as a 500 error
response. -/
theorem C1_amended (env : Env) (now : DateTime) (code : Nat) (eMsg : String)
    (v : Json) (hcode : isSuccessStatus code = true)
    (hv : ∀ fields, v ≠ Json.obj fields) :
    fetch_cat_fact (UpstreamOutcome.response code (BodyParse.malformed eMsg)) =
      Except.error
        { status_code := 500,
          detail := "Unexpected error while fetching cat fact: " ++ eMsg } ∧
    (get_profile env now
      (UpstreamOutcome.response code (BodyParse.malformed eMsg))).statusCode = 500 ∧
    (get_profile env now
      (UpstreamOutcome.response code (BodyParse.parsed v))).statusCode = 500 := by
  refine ⟨by simp [fetch_cat_fact, hcode], ?_, ?_⟩
  · simp [get_profile, build_profile_response, fetch_cat_fact, hcode]
  · cases v with
    | obj fields => exact absurd rfl (hv fields)
    | null => simp [get_profile, build_profile_response, fetch_cat_fact, hcode]
    | bool b => simp [get_profile, build_profile_response, fetch_cat_fact, hcode]
    | num n => simp [get_profile, build_profile_response, fetch_cat_fact, hcode]
    | str s => simp [get_profile, build_profile_response, fetch_cat_fact, hcode]
    | arr es => simp [get_profile, build_profile_response, fetch_cat_fact, hcode]

/-- Claim C1 witness: the amended statement applied at a concrete
2xx response with an undecodable body. -/
theorem C1_witness :
    (get_profile envDefault clock0
      (UpstreamOutcome.response 200 (BodyParse.malformed "bad body"))).statusCode = 500 :=
  (C1_amended envDefault clock0 200 "bad body" Json.null (by decide)
    (fun _ h => Json.noConfusion h)).2.1

/-! ## Claim C2 -/

/-- Claim C2 counterexample: with all user variables unset, a
successful `/me` call carries the user object produced by
`services.get_user_info` — whose `stack` defaults to
"Python/FastAPI" — while the configuration resolved at startup
(`config.Settings`) holds stack "JavaScript/Nodejs".  The response
user therefore does not equal the configured user info. -/
theorem C2_counterexample :
    profileUserOf (build_profile_response envDefault clock0 okFactOutcome) =
      some (get_user_info envDefault) ∧
    get_user_info envDefault ≠ settingsUserInfo envDefault :=
  ⟨rfl, by decide⟩

/-- Claim C2 (amended): the user fields of every successful `/me`
response come from a fresh per-request read of the environment
(`get_user_info`), not from the startup configuration.  Calls made
while the environment is unchanged all return the same user object,
but that object equals the startup `Settings` user exactly when
`USER_STACK` is set, because the two defaults for the stack field
differ. -/
theorem C2_amended (env : Env) (now now2 : DateTime)
    (outcome outcome2 : UpstreamOutcome) (p p2 : ProfilePayload)
    (h : build_profile_response env now outcome = Except.ok p)
    (h2 : build_profile_response env now2 outcome2 = Except.ok p2) :
    p.user = get_user_info env ∧
    p2.user = p.user ∧
    (get_user_info env = settingsUserInfo env ↔ env.userStack.isSome = true) := by
  have hp := (build_profile_response_ok_inv env now outcome p h).2
  have hp2 := (build_profile_response_ok_inv env now2 outcome2 p2 h2).2
  refine ⟨by rw [hp], by rw [hp, hp2], ?_⟩
  cases hstack : env.userStack with
  | none => simp [get_user_info, settingsUserInfo, hstack]
  | some s => simp [get_user_info, settingsUserInfo, hstack]

/-- Claim C2 witness: the amended statement applied to two concrete
successful calls in an environment with `USER_STACK` unset. -/
theorem C2_witness :
    profileUserOf (build_profile_response envDefault clock0 okFactOutcome) =
      some (get_user_info envDefault) ∧
    ¬ (get_user_info envDefault = settingsUserInfo envDefault) := by
  have h : build_profile_response envDefault clock0 okFactOutcome =
      Except.ok { status := "success", user := get_user_info envDefault,
                  timestamp := get_current_timestamp clock0,
                  fact := Json.str "Cats sleep a lot." } := rfl
  have hc := C2_amended envDefault clock0 clock0 okFactOutcome okFactOutcome _ _ h h
  refine ⟨rfl, ?_⟩
  intro heq
  have := hc.2.2.mp heq
  simp [envDefault] at this

/-! ## Claim C3 -/

/-- Claim C3 counterexample: a 2xx upstream response binding "fact"
to the empty string produces a successful assembler result, and a
200 `/me` response, whose fact is the empty string — not a non-empty
string as the claim requires. -/
theorem C3_counterexample :
    profileFactOf (build_profile_response envDefault clock0 emptyFactOutcome) =
      some (Json.str "") ∧
    (get_profile envDefault clock0 emptyFactOutcome).statusCode = 200 ∧
    factIsNonEmptyString (Json.str "") = false :=
  ⟨rfl, rfl, rfl⟩

/-- Claim C3 (amended): every successful assembler result has all
four fields populated — `status = "success"`, the user object, the
timestamp string, and a fact — and no partially-filled success
payload exists.  The fact, however, is whatever JSON value the
upstream bound to "fact" (or the non-empty fallback string when the
key was absent); it is not guaranteed to be a non-empty string. -/
theorem C3_amended (env : Env) (now : DateTime) (outcome : UpstreamOutcome)
    (p : ProfilePayload)
    (h : build_profile_response env now outcome = Except.ok p) :
    p.status = "success" ∧ p.user = get_user_info env ∧
    p.timestamp = get_current_timestamp now ∧
    (p.fact = Json.str FALLBACK_FACT ∨
      ∃ code fields,
        outcome = UpstreamOutcome.response code (BodyParse.parsed (Json.obj fields)) ∧
        lookupField fields "fact" = some p.fact) := by
  obtain ⟨hfc, hp⟩ := build_profile_response_ok_inv env now outcome p h
  obtain ⟨code, fields, houtcome, hcode, hfact⟩ := fetch_cat_fact_ok_inv outcome p.fact hfc
  refine ⟨by rw [hp], by rw [hp], by rw [hp], ?_⟩
  cases hlook : lookupField fields "fact" with
  | none => left; rw [hfact, hlook]; rfl
  | some v =>
    right
    refine ⟨code, fields, houtcome, ?_⟩
    rw [hfact, hlook]
    rfl

/-- Claim C3 witness: the amended statement applied to a concrete
successful call. -/
theorem C3_witness :
    profileUserOf (build_profile_response envDefault clock0 okFactOutcome) =
      some (get_user_info envDefault) := by
  have h : build_profile_response envDefault clock0 okFactOutcome =
      Except.ok { status := "success", user := get_user_info envDefault,
                  timestamp := get_current_timestamp clock0,
                  fact := Json.str "Cats sleep a lot." } := rfl
  have hc := C3_amended envDefault clock0 okFactOutcome _ h
  rw [h]
  simp [profileUserOf, hc.2.1]

/-- The status code of a fact-client result, when it failed. -/
def errStatusOf : Except HTTPException Json → Option Nat
  | Except.error e => some e.status_code
  | Except.ok _ => none

/-! ## Claim C4 -/

/-- Claim C4: `/me` maps every upstream failure kind to exactly one
HTTP status.  A timeout, an upstream 4xx/5xx status (the error body
referencing the upstream code), and a network error each produce 503
with a human-readable detail; any other failure of the fetch — a
body that fails to decode, or decodes to a non-object — produces
500. -/
theorem C4_failure_mapping (env : Env) (now : DateTime)
    (codeErr codeOk : Nat) (body : BodyParse) (d eMsg : String) (v : Json)
    (herr : 400 ≤ codeErr ∧ codeErr ≤ 599)
    (hok : isSuccessStatus codeOk = true)
    (hv : ∀ fields, v ≠ Json.obj fields) :
    ((get_profile env now UpstreamOutcome.timeoutExc).statusCode = 503 ∧
      (get_profile env now UpstreamOutcome.timeoutExc).body =
        Json.obj [("detail",
          Json.str "Cat Facts API is taking too long to respond. Please try again.")]) ∧
    ((get_profile env now (UpstreamOutcome.response codeErr body)).statusCode = 503 ∧
      (get_profile env now (UpstreamOutcome.response codeErr body)).body =
        Json.obj [("detail",
          Json.str ("Cat Facts API returned an error: " ++ toString codeErr))]) ∧
    ((get_profile env now (UpstreamOutcome.requestError d)).statusCode = 503 ∧
      (get_profile env now (UpstreamOutcome.requestError d)).body =
        Json.obj [("detail",
          Json.str ("Failed to connect to Cat Facts API: " ++ d))]) ∧
    (get_profile env now
      (UpstreamOutcome.response codeOk (BodyParse.malformed eMsg))).statusCode = 500 ∧
    (get_profile env now
      (UpstreamOutcome.response codeOk (BodyParse.parsed v))).statusCode = 500 := by
  have hfalse : isSuccessStatus codeErr = false := by
    simp only [isSuccessStatus, Bool.and_eq_false_iff, decide_eq_false_iff_not, not_le,
      not_lt]
    omega
  refine ⟨⟨rfl, rfl⟩, ?_, ⟨rfl, rfl⟩, ?_, ?_⟩
  · constructor <;>
      simp [get_profile, build_profile_response, fetch_cat_fact, hfalse]
  · simp [get_profile, build_profile_response, fetch_cat_fact, hok]
  · cases v with
    | obj fields => exact absurd rfl (hv fields)
    | null => simp [get_profile, build_profile_response, fetch_cat_fact, hok]
    | bool b => simp [get_profile, build_profile_response, fetch_cat_fact, hok]
    | num n => simp [get_profile, build_profile_response, fetch_cat_fact, hok]
    | str s => simp [get_profile, build_profile_response, fetch_cat_fact, hok]
    | arr es => simp [get_profile, build_profile_response, fetch_cat_fact, hok]

/-- Claim C4 witness: the mapping applied at upstream status 500, a
timeout, a network error, and an undecodable 2xx body. -/
theorem C4_witness :
    (get_profile envDefault clock0
      (UpstreamOutcome.response 500 (BodyParse.parsed Json.null))).statusCode = 503 ∧
    (get_profile envDefault clock0 UpstreamOutcome.timeoutExc).statusCode = 503 ∧
    (get_profile envDefault clock0
      (UpstreamOutcome.requestError "connection refused")).statusCode = 503 ∧
    (get_profile envDefault clock0
      (UpstreamOutcome.response 200 (BodyParse.malformed "bad"))).statusCode = 500 := by
  have hc := C4_failure_mapping envDefault clock0 500 200
    (BodyParse.parsed Json.null) "connection refused" "bad" Json.null
    (by decide) (by decide) (fun _ h => Json.noConfusion h)
  exact ⟨hc.2.1.1, hc.1.1, hc.2.2.1.1, hc.2.2.2.1⟩

/-! ## Claim C5 -/

/-- Claim C5: for every 2xx upstream response whose decoded object
body binds "fact" to a string, `/me` answers 200 and the response
body's "fact" field is exactly that string, unmodified. -/
theorem C5_exact_fact (env : Env) (now : DateTime) (code : Nat)
    (fields : List (String × Json)) (s : String)
    (hcode : isSuccessStatus code = true)
    (hfact : lookupField fields "fact" = some (Json.str s)) :
    (get_profile env now
      (UpstreamOutcome.response code (BodyParse.parsed (Json.obj fields)))).statusCode = 200 ∧
    (get_profile env now
      (UpstreamOutcome.response code (BodyParse.parsed (Json.obj fields)))).factField =
      some (Json.str s) := by
  constructor <;>
    simp [get_profile, build_profile_response, fetch_cat_fact, hcode, hfact,
      HttpResult.factField, ProfilePayload.toJson, lookupField]

/-- Claim C5 witness: a concrete 200 response carrying the upstream
fact string unchanged. -/
theorem C5_witness :
    (get_profile envDefault clock0 okFactOutcome).statusCode = 200 ∧
    (get_profile envDefault clock0 okFactOutcome).factField =
      some (Json.str "Cats sleep a lot.") :=
  C5_exact_fact envDefault clock0 200 [("fact", Json.str "Cats sleep a lot.")]
    "Cats sleep a lot." (by decide) rfl

/-! ## Claim C6 -/

/-- Claim C6: for every 2xx upstream response whose decoded object
body has no "fact" key, `/me` answers 200 with the fixed fallback
string "Cats are amazing creatures!" in the "fact" field. -/
theorem C6_fallback (env : Env) (now : DateTime) (code : Nat)
    (fields : List (String × Json))
    (hcode : isSuccessStatus code = true)
    (hmiss : lookupField fields "fact" = none) :
    (get_profile env now
      (UpstreamOutcome.response code (BodyParse.parsed (Json.obj fields)))).statusCode = 200 ∧
    (get_profile env now
      (UpstreamOutcome.response code (BodyParse.parsed (Json.obj fields)))).factField =
      some (Json.str "Cats are amazing creatures!") := by
  constructor <;>
    simp [get_profile, build_profile_response, fetch_cat_fact, hcode, hmiss,
      HttpResult.factField, ProfilePayload.toJson, lookupField, FALLBACK_FACT]

/-- Claim C6 witness: a concrete 200 response with an empty object
body yields the fallback string. -/
theorem C6_witness :
    (get_profile envDefault clock0
      (UpstreamOutcome.response 200 (BodyParse.parsed (Json.obj [])))).statusCode = 200 ∧
    (get_profile envDefault clock0
      (UpstreamOutcome.response 200 (BodyParse.parsed (Json.obj [])))).factField =
      some (Json.str "Cats are amazing creatures!") :=
  C6_fallback envDefault clock0 200 [] (by decide) rfl

/-! ## Claim C7 -/

/-- Claim C7 counterexample: the HTTP surface is not the sole place
that translates upstream failures into HTTP status codes.  On a
timeout the fact client itself (`services.fetch_cat_fact`, line 60)
already raises an `HTTPException` carrying status 503; the surface
(`main.get_profile`) merely re-raises it. -/
theorem C7_counterexample :
    errStatusOf (fetch_cat_fact UpstreamOutcome.timeoutExc) = some 503 ∧
    (get_profile envDefault clock0 UpstreamOutcome.timeoutExc).statusCode = 503 :=
  ⟨rfl, rfl⟩

/-- Claim C7 (amended): every upstream failure originates in the
fact client as an `HTTPException` that already carries its HTTP
status code (503 for timeout, upstream error status, and network
error; 500 for anything else); the assembler propagates it
unmodified, and the HTTP surface re-raises it as-is, serving exactly
the embedded status code and detail.  The assembler has no other
failure source. -/
theorem C7_amended (env : Env) (now : DateTime) (outcome : UpstreamOutcome) :
    (∀ e, fetch_cat_fact outcome = Except.error e →
      build_profile_response env now outcome = Except.error e ∧
      (get_profile env now outcome).statusCode = e.status_code ∧
      (get_profile env now outcome).body = Json.obj [("detail", Json.str e.detail)] ∧
      (e.status_code = 503 ∨ e.status_code = 500)) ∧
    (∀ e, build_profile_response env now outcome = Except.error e →
      fetch_cat_fact outcome = Except.error e) := by
  constructor
  · intro e he
    have hb : build_profile_response env now outcome = Except.error e :=
      (build_profile_response_error_iff env now outcome e).mpr he
    refine ⟨hb, ?_, ?_, ?_⟩
    · simp [get_profile, hb]
    · simp [get_profile, hb]
    · cases outcome with
      | timeoutExc =>
        injection he with he2
        rw [← he2]
        left
        rfl
      | requestError d =>
        injection he with he2
        rw [← he2]
        left
        rfl
      | response code body =>
        by_cases hcode : isSuccessStatus code = true
        · cases body with
          | malformed m =>
            simp [fetch_cat_fact, hcode] at he
            rw [← he]
            right
            rfl
          | parsed v =>
            cases v with
            | obj fields => simp [fetch_cat_fact, hcode] at he
            | null =>
              simp [fetch_cat_fact, hcode] at he
              rw [← he]
              right
              rfl
            | bool b =>
              simp [fetch_cat_fact, hcode] at he
              rw [← he]
              right
              rfl
            | num n =>
              simp [fetch_cat_fact, hcode] at he
              rw [← he]
              right
              rfl
            | str s =>
              simp [fetch_cat_fact, hcode] at he
              rw [← he]
              right
              rfl
            | arr es =>
              simp [fetch_cat_fact, hcode] at he
              rw [← he]
              right
              rfl
        · simp [fetch_cat_fact, hcode] at he
          rw [← he]
          left
          rfl
  · intro e he
    exact (build_profile_response_error_iff env now outcome e).mp he

/-- Claim C7 witness: the amended statement applied to a concrete
timeout. -/
theorem C7_witness :
    build_profile_response envDefault clock0 UpstreamOutcome.timeoutExc =
      Except.error
        { status_code := 503,
          detail := "Cat Facts API is taking too long to respond. Please try again." } ∧
    (get_profile envDefault clock0 UpstreamOutcome.timeoutExc).statusCode = 503 :=
  ⟨((C7_amended envDefault clock0 UpstreamOutcome.timeoutExc).1 _ rfl).1,
   ((C7_amended envDefault clock0 UpstreamOutcome.timeoutExc).1 _ rfl).2.1⟩

/-! ## Claim C10 -/

/-- Claim C10: when a 2xx object body binds "fact" to any JSON value
— including `null` or a number — `fetch_cat_fact` returns that value
unchanged, and `/me` serializes it into a 200 response whose "fact"
field is that very value (so not a string when the value is not);
the fallback is used only when the key is entirely absent. -/
theorem C10_nonstring_fact (env : Env) (now : DateTime) (code : Nat)
    (fields : List (String × Json)) (v : Json)
    (hcode : isSuccessStatus code = true)
    (hlook : lookupField fields "fact" = some v) :
    fetch_cat_fact (UpstreamOutcome.response code (BodyParse.parsed (Json.obj fields))) =
      Except.ok v ∧
    (get_profile env now
      (UpstreamOutcome.response code (BodyParse.parsed (Json.obj fields)))).statusCode = 200 ∧
    (get_profile env now
      (UpstreamOutcome.response code (BodyParse.parsed (Json.obj fields)))).factField =
      some v ∧
    (∀ fields2, lookupField fields2 "fact" = none →
      fetch_cat_fact
        (UpstreamOutcome.response code (BodyParse.parsed (Json.obj fields2))) =
        Except.ok (Json.str FALLBACK_FACT)) := by
  refine ⟨?_, ?_, ?_, ?_⟩
  · simp [fetch_cat_fact, hcode, hlook]
  · simp [get_profile, build_profile_response, fetch_cat_fact, hcode, hlook]
  · simp [get_profile, build_profile_response, fetch_cat_fact, hcode, hlook,
      HttpResult.factField, ProfilePayload.toJson, lookupField]
  · intro fields2 hmiss
    simp [fetch_cat_fact, hcode, hmiss]

/-- Claim C10 witness: a 2xx body binding "fact" to `null` reaches
the client as a 200 response whose "fact" field is `null`, while an
empty body object yields the fallback. -/
theorem C10_witness :
    (get_profile envDefault clock0
      (UpstreamOutcome.response 200
        (BodyParse.parsed (Json.obj [("fact", Json.null)])))).statusCode = 200 ∧
    (get_profile envDefault clock0
      (UpstreamOutcome.response 200
        (BodyParse.parsed (Json.obj [("fact", Json.null)])))).factField =
      some Json.null ∧
    fetch_cat_fact (UpstreamOutcome.response 200 (BodyParse.parsed (Json.obj []))) =
      Except.ok (Json.str FALLBACK_FACT) := by
  have hc := C10_nonstring_fact envDefault clock0 200 [("fact", Json.null)] Json.null
    (by decide) rfl
  exact ⟨hc.2.1, hc.2.2.1, hc.2.2.2 [] rfl⟩

/-! ## ISO-8601 recognizer (from the spec's glossary) and timestamp
ordering -/

/-- Consume exactly `w` decimal digit characters. -/
def takeDigits : Nat → List Char → Option (List Char)
  | 0, cs => some cs
  | _ + 1, [] => none
  | n + 1, c :: cs => if c.isDigit then takeDigits n cs else none

/-- Consume one expected character. -/
def expectChar (c : Char) : List Char → Option (List Char)
  | [] => none
  | c2 :: cs => if c2 = c then some cs else none

/-- Consume an optional fractional-seconds part: a dot followed by
six digits, or nothing. -/
def checkFraction : List Char → Option (List Char)
  | [] => some []
  | c :: cs => if c = '.' then takeDigits 6 cs else some (c :: cs)

/-- The spec-side recognizer of the glossary's "ISO-8601 timestamp:
date-time string with UTC offset, e.g.
2025-10-17T14:30:45.123456+00:00": four year digits, dashed date,
"T", colon-separated time, optional six-digit fraction, and the
"+00:00" UTC offset, with nothing after it.  This definition follows
the spec's words and is compared against the rendering the source
produces. -/
def specISO8601UTC (s : String) : Bool :=
  let r := (takeDigits 4 s.data).bind (expectChar '-') |>.bind (takeDigits 2)
    |>.bind (expectChar '-') |>.bind (takeDigits 2) |>.bind (expectChar 'T')
    |>.bind (takeDigits 2) |>.bind (expectChar ':') |>.bind (takeDigits 2)
    |>.bind (expectChar ':') |>.bind (takeDigits 2) |>.bind checkFraction
    |>.bind (expectChar '+') |>.bind (takeDigits 2) |>.bind (expectChar ':')
    |>.bind (takeDigits 2)
  match r with
  | some [] => true
  | _ => false

/-- Every rendered digit character is a decimal digit. -/
theorem digitChar_isDigit (n : Nat) : (digitChar n).isDigit = true := by
  have h : n % 10 < 10 := Nat.mod_lt _ (by decide)
  unfold digitChar
  interval_cases h2 : n % 10 <;> decide

/-- `specISO8601UTC` accepts every string `get_current_timestamp`
can produce. -/
theorem specISO8601UTC_isoformat (t : DateTime) :
    specISO8601UTC (String.mk (isoformatChars t)) = true := by
  unfold specISO8601UTC isoformatChars
  by_cases h : t.microsecond = 0
  · simp [h, digitChar_isDigit, padChars, takeDigits, expectChar, checkFraction]
  · simp [h, digitChar_isDigit, padChars, takeDigits, expectChar, checkFraction]

/-- Byte-lexicographic order (at most) on character lists: the order
in which a client compares the returned timestamp strings. -/
def charsLe : List Char → List Char → Bool
  | [], _ => true
  | _ :: _, [] => false
  | a :: as, b :: bs => decide (a < b) || (a == b && charsLe as bs)

/-- Strict byte-lexicographic order on character lists. -/
def charsLt : List Char → List Char → Bool
  | _, [] => false
  | [], _ :: _ => true
  | a :: as, b :: bs => decide (a < b) || (a == b && charsLt as bs)

theorem charsLe_refl (cs : List Char) : charsLe cs cs = true := by
  induction cs with
  | nil => rfl
  | cons a as ih => simp [charsLe, ih]

theorem charsLe_cons_same (c : Char) (cs ds : List Char) :
    charsLe (c :: cs) (c :: ds) = charsLe cs ds := by
  simp [charsLe]

theorem charsLt_cons_same (c : Char) (cs ds : List Char) :
    charsLt (c :: cs) (c :: ds) = charsLt cs ds := by
  simp [charsLt]

theorem charsLe_cons_lt (c1 c2 : Char) (cs ds : List Char) (h : c1 < c2) :
    charsLe (c1 :: cs) (c2 :: ds) = true := by
  simp [charsLe, h]

/-- A strictly smaller prefix of the same length decides the
comparison whatever follows. -/
theorem charsLt_append (as bs cs ds : List Char) (hlen : as.length = bs.length)
    (h : charsLt as bs = true) : charsLe (as ++ cs) (bs ++ ds) = true := by
  induction as generalizing bs with
  | nil =>
    cases bs with
    | nil => simp [charsLt] at h
    | cons b bs2 => simp at hlen
  | cons a as2 ih =>
    cases bs with
    | nil => simp at hlen
    | cons b bs2 =>
      simp only [List.cons_append]
      simp only [charsLt, Bool.or_eq_true, Bool.and_eq_true, decide_eq_true_eq,
        beq_iff_eq] at h
      rcases h with h | ⟨rfl, h⟩
      · exact charsLe_cons_lt _ _ _ _ h
      · rw [charsLe_cons_same]
        exact ih bs2 (by simpa using hlen) h

/-- An equal prefix reduces the comparison to the suffixes. -/
theorem charsLe_append_left (xs cs ds : List Char) (h : charsLe cs ds = true) :
    charsLe (xs ++ cs) (xs ++ ds) = true := by
  induction xs with
  | nil => simpa using h
  | cons x xs2 ih => simpa [charsLe_cons_same] using ih

theorem padChars_length (w n : Nat) : (padChars w n).length = w := by
  induction w generalizing n with
  | zero => rfl
  | succ w ih => simp [padChars, ih]

theorem digitChar_lt (a b : Nat) (h : a % 10 < b % 10) :
    digitChar a < digitChar b := by
  unfold digitChar
  have ha : a % 10 < 10 := Nat.mod_lt _ (by decide)
  have hb : b % 10 < 10 := Nat.mod_lt _ (by decide)
  interval_cases h1 : a % 10 <;> interval_cases h2 : b % 10 <;>
    first
    | exact absurd h (by decide)
    | decide

theorem digitChar_congr (a b : Nat) (h : a % 10 = b % 10) :
    digitChar a = digitChar b := by
  unfold digitChar
  rw [h]

/-- Fixed-width zero-padded decimal rendering is strictly monotone in
the rendered residue. -/
theorem charsLt_padChars (w n m : Nat) (h : n % 10 ^ w < m % 10 ^ w) :
    charsLt (padChars w n) (padChars w m) = true := by
  induction w generalizing n m with
  | zero => simp [Nat.mod_one] at h
  | succ w ih =>
    have e1 : n % 10 ^ (w + 1) = n % 10 ^ w + 10 ^ w * (n / 10 ^ w % 10) := by
      rw [pow_succ]
      exact Nat.mod_mul
    have e2 : m % 10 ^ (w + 1) = m % 10 ^ w + 10 ^ w * (m / 10 ^ w % 10) := by
      rw [pow_succ]
      exact Nat.mod_mul
    have hbn : n % 10 ^ w < 10 ^ w := Nat.mod_lt _ (Nat.pos_pow_of_pos w (by decide))
    have hbm : m % 10 ^ w < 10 ^ w := Nat.mod_lt _ (Nat.pos_pow_of_pos w (by decide))
    rcases Nat.lt_trichotomy (n / 10 ^ w % 10) (m / 10 ^ w % 10) with hlt | heq | hgt
    · have := digitChar_lt (n / 10 ^ w) (m / 10 ^ w) (by simpa using hlt)
      simp [padChars, charsLt, this]
    · have hc := digitChar_congr (n / 10 ^ w) (m / 10 ^ w) (by simpa using heq)
      have htail : n % 10 ^ w < m % 10 ^ w := by
        rw [e1, e2, heq] at h
        omega
      simp [padChars, hc, charsLt_cons_same, ih _ _ htail]
    · exfalso
      rw [e1, e2] at h
      have hk : m / 10 ^ w % 10 + 1 ≤ n / 10 ^ w % 10 := hgt
      have hmul : 10 ^ w * (m / 10 ^ w % 10 + 1) ≤ 10 ^ w * (n / 10 ^ w % 10) :=
        Nat.mul_le_mul_left _ hk
      rw [Nat.mul_add, Nat.mul_one] at hmul
      omega

theorem charsLt_padChars_of_lt (w n m bound : Nat) (hbound : 10 ^ w = bound)
    (hn : n < bound) (hm : m < bound) (h : n < m) :
    charsLt (padChars w n) (padChars w m) = true := by
  apply charsLt_padChars
  rw [hbound, Nat.mod_eq_of_lt hn, Nat.mod_eq_of_lt hm]
  exact h

theorem charsLe_pad_strict (w n m bound : Nat) (R1 R2 : List Char)
    (hbound : 10 ^ w = bound) (hn : n < bound) (hm : m < bound) (h : n < m) :
    charsLe (padChars w n ++ R1) (padChars w m ++ R2) = true :=
  charsLt_append _ _ _ _ (by simp [padChars_length])
    (charsLt_padChars_of_lt w n m bound hbound hn hm h)

/-- Comparison of the optional fractional part followed by the fixed
UTC offset: smaller (or absent) microseconds compare no larger.  The
absent-fraction string continues with a plus sign, which orders
before the dot of a present fraction. -/
theorem charsLe_fracTz (u1 u2 : Nat) (hu1 : u1 ≤ 999999) (hu2 : u2 ≤ 999999)
    (h : u1 ≤ u2) :
    charsLe
      ((if u1 = 0 then [] else '.' :: padChars 6 u1) ++ ['+', '0', '0', ':', '0', '0'])
      ((if u2 = 0 then [] else '.' :: padChars 6 u2) ++ ['+', '0', '0', ':', '0', '0']) =
      true := by
  by_cases h1 : u1 = 0
  · by_cases h2 : u2 = 0
    · rw [h1, h2]
      exact charsLe_refl _
    · rw [if_pos h1, if_neg h2]
      simp only [List.nil_append, List.cons_append]
      exact charsLe_cons_lt _ _ _ _ (by decide)
  · have h2 : ¬ u2 = 0 := by omega
    rw [if_neg h1, if_neg h2]
    simp only [List.cons_append]
    rw [charsLe_cons_same]
    rcases Nat.lt_or_ge u1 u2 with hlt | hge
    · exact charsLe_pad_strict 6 u1 u2 1000000 _ _ (by norm_num) (by omega) (by omega)
        hlt
    · have heq12 : u1 = u2 := by omega
      rw [heq12]
      exact charsLe_refl _

/-- The temporal order on clock readings: the usual lexicographic
comparison of the datetime fields, i.e. the real time order for
valid field ranges.  "The process clock does not go backwards"
between two calls means the two readings stand in this relation. -/
def DateTime.lexLe (a b : DateTime) : Prop :=
  a.year < b.year ∨ (a.year = b.year ∧ (a.month < b.month ∨ (a.month = b.month ∧
    (a.day < b.day ∨ (a.day = b.day ∧ (a.hour < b.hour ∨ (a.hour = b.hour ∧
    (a.minute < b.minute ∨ (a.minute = b.minute ∧ (a.second < b.second ∨
    (a.second = b.second ∧ a.microsecond ≤ b.microsecond)))))))))))

instance (t : DateTime) : Decidable t.Valid := by
  unfold DateTime.Valid
  infer_instance

instance (a b : DateTime) : Decidable (DateTime.lexLe a b) := by
  unfold DateTime.lexLe
  infer_instance

/-- The rendering of `datetime.isoformat` is monotone with respect
to the temporal order on valid datetimes, in byte-lexicographic
string order. -/
theorem isoformatChars_mono (t1 t2 : DateTime) (h1 : t1.Valid) (h2 : t2.Valid)
    (hle : DateTime.lexLe t1 t2) :
    charsLe (isoformatChars t1) (isoformatChars t2) = true := by
  obtain ⟨hy1a, hy1b, hmo1a, hmo1b, hd1a, hd1b, hh1, hmi1, hs1, hus1⟩ := h1
  obtain ⟨hy2a, hy2b, hmo2a, hmo2b, hd2a, hd2b, hh2, hmi2, hs2, hus2⟩ := h2
  unfold isoformatChars
  rcases hle with hy | ⟨hy, hmo | ⟨hmo, hd | ⟨hd, hh | ⟨hh, hmi | ⟨hmi, hs | ⟨hs, hus⟩⟩⟩⟩⟩⟩
  · exact charsLe_pad_strict 4 _ _ 10000 _ _ (by norm_num) (by omega) (by omega) hy
  · rw [hy]
    apply charsLe_append_left
    rw [charsLe_cons_same]
    exact charsLe_pad_strict 2 _ _ 100 _ _ (by norm_num) (by omega) (by omega) hmo
  · rw [hy, hmo]
    apply charsLe_append_left
    rw [charsLe_cons_same]
    apply charsLe_append_left
    rw [charsLe_cons_same]
    exact charsLe_pad_strict 2 _ _ 100 _ _ (by norm_num) (by omega) (by omega) hd
  · rw [hy, hmo, hd]
    apply charsLe_append_left
    rw [charsLe_cons_same]
    apply charsLe_append_left
    rw [charsLe_cons_same]
    apply charsLe_append_left
    rw [charsLe_cons_same]
    exact charsLe_pad_strict 2 _ _ 100 _ _ (by norm_num) (by omega) (by omega) hh
  · rw [hy, hmo, hd, hh]
    apply charsLe_append_left
    rw [charsLe_cons_same]
    apply charsLe_append_left
    rw [charsLe_cons_same]
    apply charsLe_append_left
    rw [charsLe_cons_same]
    apply charsLe_append_left
    rw [charsLe_cons_same]
    exact charsLe_pad_strict 2 _ _ 100 _ _ (by norm_num) (by omega) (by omega) hmi
  · rw [hy, hmo, hd, hh, hmi]
    apply charsLe_append_left
    rw [charsLe_cons_same]
    apply charsLe_append_left
    rw [charsLe_cons_same]
    apply charsLe_append_left
    rw [charsLe_cons_same]
    apply charsLe_append_left
    rw [charsLe_cons_same]
    apply charsLe_append_left
    rw [charsLe_cons_same]
    exact charsLe_pad_strict 2 _ _ 100 _ _ (by norm_num) (by omega) (by omega) hs
  · rw [hy, hmo, hd, hh, hmi, hs]
    apply charsLe_append_left
    rw [charsLe_cons_same]
    apply charsLe_append_left
    rw [charsLe_cons_same]
    apply charsLe_append_left
    rw [charsLe_cons_same]
    apply charsLe_append_left
    rw [charsLe_cons_same]
    apply charsLe_append_left
    rw [charsLe_cons_same]
    apply charsLe_append_left
    exact charsLe_fracTz _ _ hus1 hus2 hus

/-! ## Claim C8 -/

/-- Claim C8: `/health` always answers 200 with `status =
"healthy"` and a timestamp accepted by the spec's ISO-8601-with-UTC-
offset format.  The handler takes only the clock reading — the
upstream fact API does not appear among its inputs, so its
availability cannot influence the response. -/
theorem C8_health (now : DateTime) :
    health_route now =
      (200, { status := "healthy", timestamp := get_current_timestamp now }) ∧
    specISO8601UTC (health_check now).timestamp = true :=
  ⟨rfl, specISO8601UTC_isoformat now⟩

/-! ## Claim C9 -/

/-- Claim C9: the timestamps `/health` and `/me` return come from
`get_current_timestamp`, whose rendering is monotone in the clock:
for two sequential calls whose clock readings do not go backwards
(`DateTime.lexLe` on valid readings), the later timestamp string
compares greater than or equal in byte-lexicographic order. -/
theorem C9_timestamp_monotone (t1 t2 : DateTime) (h1 : t1.Valid) (h2 : t2.Valid)
    (hclock : DateTime.lexLe t1 t2) :
    charsLe (health_check t1).timestamp.data (health_check t2).timestamp.data = true ∧
    charsLe (get_current_timestamp t1).data (get_current_timestamp t2).data = true ∧
    (∀ env outcome p, build_profile_response env t1 outcome = Except.ok p →
      p.timestamp = get_current_timestamp t1) := by
  refine ⟨isoformatChars_mono t1 t2 h1 h2 hclock,
    isoformatChars_mono t1 t2 h1 h2 hclock, ?_⟩
  intro env outcome p hp
  rw [(build_profile_response_ok_inv env t1 outcome p hp).2]

/-- A clock reading one second after `clock0`, with zero
microseconds. -/
def clock1 : DateTime :=
  { year := 2025, month := 10, day := 17, hour := 14,
    minute := 30, second := 46, microsecond := 0 }

/-- Claim C9 witness: the monotonicity applied to two concrete clock
readings one second apart (the later one exercising the dropped
fractional part). -/
theorem C9_witness :
    DateTime.Valid clock0 ∧ DateTime.Valid clock1 ∧ DateTime.lexLe clock0 clock1 ∧
    charsLe (get_current_timestamp clock0).data (get_current_timestamp clock1).data =
      true :=
  ⟨by decide, by decide, by decide,
    (C9_timestamp_monotone clock0 clock1 (by decide) (by decide) (by decide)).2.1⟩
